import Mathlib

/-!
# Verification of the booking intake bot (`src/app.py`)

A shallow embedding of the booking bot: strings are modelled as `List Char`,
the SQLite table as a list of rows in insertion order (the autoincrement id
is the row's position), chat replies as an inductive `Out` datatype, and the
aiogram finite-state machine as an explicit `step` function over events.
Wall-clock time enters only through event parameters (`sec`, `micros`,
`createdAt`), and the possibility that the SQLite INSERT raises is an
exogenous `insertFails` flag on the confirm event: when it is set, the
handler aborts at the INSERT exactly as a propagating Python exception
would, so no later statement of the handler runs.
-/

/-- The hard-coded administrator chat id (`ADMIN_CHAT_ID` in `app.py`). -/
def ADMIN_CHAT_ID : Nat := 5778964874

/-- One row of the `bookings` table.  The schema created by `init_db`
(`app.py` lines 83-95) declares `created_at, code, parent, phone_e164,
child_age`, all `TEXT NOT NULL`, and no UNIQUE constraint on any of them. -/
structure Booking where
  code : List Char
  parent : List Char
  phone_e164 : List Char
  child_age : List Char
  created_at : List Char
deriving DecidableEq

/-- The `bookings` table: rows in insertion order; a row's autoincrement id
is its position, so later rows have larger ids. -/
abbrev Store := List Booking

/-- `insert_booking` (`app.py` lines 105-111): a plain
`INSERT INTO bookings(...) VALUES (...)`.  Because the schema has no
uniqueness constraint, the INSERT always succeeds and appends a row. -/
def insert_booking (b : Booking) (s : Store) : Store := s ++ [b]

/-- `find_by_phone` (`app.py` lines 113-116):
`SELECT 1 FROM bookings WHERE phone_e164 = ? LIMIT 1`. -/
def find_by_phone (p : List Char) (s : Store) : Bool :=
  s.any (fun b => b.phone_e164 == p)

/-- `count_total` (`app.py` lines 118-122): `SELECT COUNT(*) FROM bookings`. -/
def count_total (s : Store) : Nat := s.length

/-- Modelled from the spec: `existsByCode(code) -> bool` of the Booking
Store.  `src/app.py` has no such function (no code-uniqueness query exists
in this revision); the spec's §4.2 declares it, so it is modelled here from
the spec's words to state claims about code collisions. -/
def exists_by_code (c : List Char) (s : Store) : Bool :=
  s.any (fun b => b.code == c)

/-- Characters kept by `re.sub(r"[^\d+]", "", text)`: digits and the plus
sign (ASCII digits model Python's `\d`). -/
def isPhoneChar (c : Char) : Bool := c.isDigit || c == '+'

/-- `l` begins with the pattern `pat` (Python `str.startswith`). -/
def beginsWith : List Char → List Char → Bool
  | [], _ => true
  | _ :: _, [] => false
  | p :: ps, c :: cs => p == c && beginsWith ps cs

/-- `format_phone_to_e164` (`app.py` lines 125-132).  First strips every
character except digits and plus signs; if the result starts with `"+7"`
and contains exactly 11 digits it is returned verbatim.  Otherwise the
digits-only form of the input is taken; if it starts with `"8"` and has
exactly 11 digits, `"+7"` followed by its last 10 digits is returned.
Otherwise `none`. -/
def format_phone_to_e164 (text : List Char) : Option (List Char) :=
  let digits := text.filter isPhoneChar
  if beginsWith ("+7".toList) digits && (digits.filter Char.isDigit).length == 11 then
    some digits
  else
    let digits_only := text.filter Char.isDigit
    if beginsWith ("8".toList) digits_only && digits_only.length == 11 then
      some ('+' :: '7' :: digits_only.drop 1)
    else none

/-- Decimal digit `d` as a character; any argument above 9 is clamped to
`'9'` (unreachable for the uses below, where arguments are `n % 10`). -/
def digitChar (d : Nat) : Char :=
  match d with
  | 0 => '0' | 1 => '1' | 2 => '2' | 3 => '3' | 4 => '4'
  | 5 => '5' | 6 => '6' | 7 => '7' | 8 => '8' | _ => '9'

/-- Core of the decimal rendering, structurally recursive on a fuel bound on
the number of digits (so that it reduces inside the kernel). -/
def natDigitsCore : Nat → Nat → List Char
  | 0, n => [digitChar n]
  | fuel + 1, n =>
    if n < 10 then [digitChar n]
    else natDigitsCore fuel (n / 10) ++ [digitChar (n % 10)]

/-- Decimal digit characters of `n`, most significant first.  Fuel 20 covers
every `n < 10^21`, far beyond any Unix timestamp or microsecond count. -/
def natDigits (n : Nat) : List Char := natDigitsCore 20 n

/-- Left-pad with `'0'` to length `k` (shorter lists only; longer lists are
returned unchanged). -/
def padZeros (k : Nat) (l : List Char) : List Char :=
  List.replicate (k - l.length) '0' ++ l

/-- `generate_unique_code` (`app.py` lines 134-135):
`f"{datetime.now().timestamp():.6f}".replace(".", "")[-4:]`.
The timestamp is modelled as whole seconds `sec` plus the microsecond
fraction `micros < 1000000`; the `%.6f` rendering is the decimal digits of
`sec`, a dot, and `micros` zero-padded to 6 digits; removing the dot and
taking the last 4 characters gives the code.  No store is consulted. -/
def generate_unique_code (sec micros : Nat) : List Char :=
  let s := natDigits sec ++ padZeros 6 (natDigits micros)
  s.drop (s.length - 4)

-- Quick sanity checks that the embedding computes as the Python does.
example : format_phone_to_e164 ("89991234567".toList) = some ("+79991234567".toList) := by decide
example : format_phone_to_e164 ("+7 999 123-45-67".toList) = some ("+79991234567".toList) := by decide
example : format_phone_to_e164 ("+7999123456".toList) = none := by decide
example : generate_unique_code 1700000000 123456 = "3456".toList := by decide
example : generate_unique_code 1700000000 7 = "0007".toList := by decide

/-- Whitespace characters for `str.strip()` / the `\s` class (ASCII part). -/
def isWs (c : Char) : Bool :=
  c == ' ' || c == '\t' || c == '\n' || c == '\r'

/-- `str.strip()`: drop whitespace from both ends. -/
def strip (l : List Char) : List Char :=
  ((l.dropWhile isWs).reverse.dropWhile isWs).reverse

/-- Worker for `collapseWs`: the flag records whether the previous kept
character position was inside a whitespace run. -/
def collapseWsAux : Bool → List Char → List Char
  | _, [] => []
  | prevWs, c :: rest =>
    if isWs c then
      if prevWs then collapseWsAux true rest
      else ' ' :: collapseWsAux true rest
    else c :: collapseWsAux false rest

/-- `re.sub(r"\s+", " ", ...)`: collapse every whitespace run to one space. -/
def collapseWs (l : List Char) : List Char := collapseWsAux false l

/-- Python `data.split(":", 1)[1]`: everything after the first colon (the
callers guard that a colon is present; on colon-free input Python would
raise, modelled as the empty remainder). -/
def afterFirstColon : List Char → List Char
  | [] => []
  | c :: rest => if c == ':' then rest else afterFirstColon rest

/-- The aiogram FSM states of `class Form` (`app.py` lines 138-142); `idle`
is the absence of a state (after `state.clear()` or before signup). -/
inductive FormState where
  | idle
  | parent_name
  | phone
  | child_age
  | confirm
deriving DecidableEq

/-- The FSM data written with `state.update_data` and read with
`state.get_data`: the three collected fields, each absent until its step
completes. -/
structure Session where
  parent : Option (List Char)
  phone_e164 : Option (List Char)
  child_age : Option (List Char)
deriving DecidableEq

/-- The empty session, as after `state.clear()`. -/
def Session.empty : Session := ⟨none, none, none⟩

/-- One user's view of the bot: FSM state, session data, and the database. -/
structure Config where
  st : FormState
  sess : Session
  store : Store
deriving DecidableEq

/-- The user-visible (and admin-visible) outputs a handler can emit, one
constructor per `answer`/`answer_document`/`send_message` call site in
`app.py`, carrying the data interpolated into the message text. -/
inductive Out where
  | pong
  | welcome
  | statusReply (total : Nat)
  | noRights
  | csvDocument (rows : List (List (List Char))) (total : Nat)
  | countReply (total : Nat)
  | askParentName
  | cancelled
  | confirmed (code : List Char)
  | adminNotify (b : Booking)
  | nameRetry
  | askPhone
  | phoneRetry
  | alreadyBooked
  | askAge
  | ageRetry
  | reviewSummary (parent phone age : List Char)
  | unknownCommand
  | cbAck
deriving DecidableEq

/-- Inbound events, one per aiogram handler trigger.  Commands are separate
constructors because the `Command`/`CommandStart` filters match in any FSM
state; `textMsg` is a plain text message routed by the current state.
`confirmCb` carries the callback data plus the exogenous inputs the confirm
handler consumes: the current time (`sec`, `micros`) fed to
`generate_unique_code`, the rendered `created_at` string, and whether the
SQLite INSERT raises (`insertFails`). -/
inductive Event where
  | pingCmd
  | startCmd
  | menuCmd
  | statusCmd (uid : Option Nat)
  | exportCmd (uid : Option Nat)
  | countCmd (uid : Option Nat)
  | signupStart
  | confirmCb (data : List Char) (sec micros : Nat) (createdAt : List Char) (insertFails : Bool)
  | textMsg (t : List Char)

/-- `status_cmd` (`app.py` lines 163-167): replies with the total row count
to any caller; there is no admin check.  (The reply also interpolates the
server clock, which carries no booking data and is omitted.) -/
def status_cmd (_uid : Option Nat) (s : Store) : List Out :=
  [.statusReply (count_total s)]

/-- `count_cmd` (`app.py` lines 195-203): denies unless the message has a
sender and the sender's id equals `ADMIN_CHAT_ID`. -/
def count_cmd (uid : Option Nat) (s : Store) : List Out :=
  match uid with
  | some u => if u == ADMIN_CHAT_ID then [.countReply (count_total s)] else [.noRights]
  | none => [.noRights]

/-- One CSV data row of a booking, in the column order of the export query
`SELECT created_at, code, parent, phone_e164, child_age`. -/
def bookingRow (b : Booking) : List (List Char) :=
  [b.created_at, b.code, b.parent, b.phone_e164, b.child_age]

/-- The header row written by `export_csv` (`app.py` line 177): the tuple
`("created_at", "code", "parent", "phone_e164", "child_age")`. -/
def exportHeaderRow : List (List Char) :=
  ["created_at".toList, "code".toList, "parent".toList,
   "phone_e164".toList, "child_age".toList]

/-- Data rows of the export, `ORDER BY id DESC`: reverse insertion order,
most recently created first. -/
def exportRows (s : Store) : List (List (List Char)) :=
  s.reverse.map bookingRow

/-- `export_csv` (`app.py` lines 169-193): denies when the message has a
sender whose id differs from `ADMIN_CHAT_ID` (a sender-less message passes
the gate); otherwise writes header plus rows, newest first, and attaches
the file with the booking count in the caption. -/
def export_csv (uid : Option Nat) (s : Store) : List Out :=
  match uid with
  | some u =>
    if u != ADMIN_CHAT_ID then [.noRights]
    else [.csvDocument (exportHeaderRow :: exportRows s) s.length]
  | none => [.csvDocument (exportHeaderRow :: exportRows s) s.length]

/-- `on_parent_name` (`app.py` lines 263-272): collapse whitespace and trim;
names shorter than 2 characters re-prompt without state change; otherwise
store the name and advance to the phone step. -/
def on_parent_name (t : List Char) (c : Config) : Config × List Out :=
  let name := collapseWs (strip t)
  if name.length < 2 then (c, [.nameRetry])
  else ({ c with sess := { c.sess with parent := some name }, st := .phone },
        [.askPhone])

/-- `on_phone` (`app.py` lines 274-286): normalize; on rejection re-prompt;
if a booking with this phone exists, report "already booked" and stay;
otherwise store the phone and advance to the age step. -/
def on_phone (t : List Char) (c : Config) : Config × List Out :=
  match format_phone_to_e164 t with
  | none => (c, [.phoneRetry])
  | some p =>
    if find_by_phone p c.store then (c, [.alreadyBooked])
    else ({ c with sess := { c.sess with phone_e164 := some p }, st := .child_age },
          [.askAge])

/-- `on_child_age` (`app.py` lines 288-309): trim; empty input re-prompts;
otherwise store the age, show the review summary with confirm/cancel
buttons, and enter the confirm state. -/
def on_child_age (t : List Char) (c : Config) : Config × List Out :=
  let age := strip t
  if age.length < 1 then (c, [.ageRetry])
  else
    let sess' := { c.sess with child_age := some age }
    ({ c with sess := sess', st := .confirm },
     [.reviewSummary (sess'.parent.getD []) (sess'.phone_e164.getD []) age])

/-- The Booking that `on_confirm` constructs (`app.py` lines 224-231): the
freshly generated code, the three session fields, and the rendered
creation time. -/
def bookingOf (c : Config) (sec micros : Nat) (createdAt : List Char) : Booking :=
  { code := generate_unique_code sec micros
    parent := c.sess.parent.getD []
    phone_e164 := c.sess.phone_e164.getD []
    child_age := c.sess.child_age.getD []
    created_at := createdAt }

/-- `on_confirm` (`app.py` lines 213-260), reached only in the confirm state
with data starting `"confirm:"`.  Action `"no"`: clear the session and
announce cancellation.  Any other action: read the session, generate the
code, build the booking and INSERT it.  There is no try/except around
`insert_booking`: if the INSERT raises, the exception propagates, so no
reply is sent, the admin is not notified and `state.clear()` never runs —
modelled by returning the configuration unchanged with no outputs.  On
success: confirmation reply with the code, best-effort admin notification,
then `state.clear()`. -/
def on_confirm (data : List Char) (sec micros : Nat) (createdAt : List Char)
    (insertFails : Bool) (c : Config) : Config × List Out :=
  let action := afterFirstColon data
  if action == "no".toList then
    ({ c with st := .idle, sess := Session.empty }, [.cancelled, .cbAck])
  else
    let b := bookingOf c sec micros createdAt
    if insertFails then (c, [])
    else
      ({ st := .idle, sess := Session.empty, store := insert_booking b c.store },
       [.confirmed b.code, .adminNotify b, .cbAck])

/-- The dispatcher: one step of the bot on one inbound event, mirroring the
aiogram handler registration of `app.py`.  Command handlers have no state
filter and fire in any state; `/start` and `/menu` run `state.clear()`;
`signup:start` fires in any state and only sets the state (it does not
clear the collected data); the confirm callback requires the confirm state
and data beginning `"confirm:"` (otherwise no handler matches); plain text
is routed by the current state, falling through to `unknown_message`. -/
def step (c : Config) (e : Event) : Config × List Out :=
  match e with
  | .pingCmd => (c, [.pong])
  | .startCmd => ({ c with st := .idle, sess := Session.empty }, [.welcome])
  | .menuCmd => ({ c with st := .idle, sess := Session.empty }, [.welcome])
  | .statusCmd uid => (c, status_cmd uid c.store)
  | .exportCmd uid => (c, export_csv uid c.store)
  | .countCmd uid => (c, count_cmd uid c.store)
  | .signupStart => ({ c with st := .parent_name }, [.askParentName, .cbAck])
  | .confirmCb data sec micros createdAt insertFails =>
    if c.st == .confirm && beginsWith ("confirm:".toList) data then
      on_confirm data sec micros createdAt insertFails c
    else (c, [])
  | .textMsg t =>
    match c.st with
    | .parent_name => on_parent_name t c
    | .phone => on_phone t c
    | .child_age => on_child_age t c
    | _ => (c, [.unknownCommand])

/-- Run a sequence of events from a configuration. -/
def run (c : Config) (es : List Event) : Config :=
  es.foldl (fun c e => (step c e).1) c

-- An end-to-end sanity check: the spec's §8 example trace.
example :
    (run ⟨.idle, Session.empty, []⟩
      [.startCmd, .signupStart, .textMsg ("Anna Ivanova".toList),
       .textMsg ("89991234567".toList), .textMsg ("3 years".toList),
       .confirmCb ("confirm:yes".toList) 1700000000 123456 ("2025-10-25 10:00:00 +0300".toList) false]).store
    = [{ code := "3456".toList, parent := "Anna Ivanova".toList,
         phone_e164 := "+79991234567".toList, child_age := "3 years".toList,
         created_at := "2025-10-25 10:00:00 +0300".toList }] := by decide

/-! ## Concrete fixtures used by counterexamples and witnesses -/

/-- A concrete stored booking. -/
def demoBooking1 : Booking :=
  { code := "1111".toList, parent := "Anna".toList,
    phone_e164 := "+79991234567".toList, child_age := "3 years".toList,
    created_at := "2025-10-20 10:00:00 +0300".toList }

/-- A second concrete booking with the same phone as `demoBooking1`. -/
def demoBooking2 : Booking :=
  { code := "2222".toList, parent := "Ivan".toList,
    phone_e164 := "+79991234567".toList, child_age := "4 years".toList,
    created_at := "2025-10-21 10:00:00 +0300".toList }

/-- A completed session, as after the name, phone and age steps. -/
def demoSession : Session :=
  { parent := some ("Anna".toList), phone_e164 := some ("+79992223344".toList),
    child_age := some ("3 years".toList) }

/-- A rendered creation timestamp. -/
def demoCreatedAt : List Char := "2025-10-21 12:00:00 +0300".toList

/-- A configuration sitting at the confirm step over an empty table. -/
def demoConfirmConfig : Config := { st := .confirm, sess := demoSession, store := [] }

/-! ## Helper lemmas -/

/-- Dropping an initial segment plus `n` skips the segment. -/
theorem drop_length_add_append (A B : List Char) (n : Nat) :
    (A ++ B).drop (A.length + n) = B.drop n := by
  induction A with
  | nil => simp
  | cons a A ih =>
    simp [Nat.succ_add, ih]

/-- `digitChar` always yields a decimal digit character. -/
theorem digitChar_isDigit : ∀ d : Nat, (digitChar d).isDigit = true
  | 0 | 1 | 2 | 3 | 4 | 5 | 6 | 7 | 8 => rfl
  | _ + 9 => rfl

/-- Every character produced by `natDigitsCore` is a decimal digit. -/
theorem natDigitsCore_all_digits (fuel : Nat) :
    ∀ n, (natDigitsCore fuel n).all Char.isDigit = true := by
  induction fuel with
  | zero => intro n; simp [natDigitsCore, digitChar_isDigit]
  | succ fuel ih =>
    intro n
    simp only [natDigitsCore]
    split
    · simp [digitChar_isDigit]
    · simp [List.all_append, ih, digitChar_isDigit]

/-- Dropping preserves `all`. -/
theorem all_drop {p : Char → Bool} {l : List Char} (k : Nat)
    (h : l.all p = true) : (l.drop k).all p = true := by
  rw [List.all_eq_true] at h ⊢
  intro x hx
  exact h x (List.mem_of_mem_drop hx)

/-- The padded digit rendering has length at least the pad width. -/
theorem padZeros_length_ge (k : Nat) (l : List Char) :
    k ≤ (padZeros k l).length := by
  simp only [padZeros, List.length_append, List.length_replicate]
  omega


/-- `'0'`-padding consists of decimal digits. -/
theorem replicate_zero_all_digits (k : Nat) :
    (List.replicate k '0').all Char.isDigit = true := by
  induction k with
  | zero => rfl
  | succ k ih => simp [List.replicate_succ, ih]

/-! ## C1: does the store reject a duplicate phone? -/

/-- C1 (counterexample): with `demoBooking1` already stored, inserting
`demoBooking2`, which carries the same phone, does not fail with a
constraint violation: the row is appended, so the stored rows change and
the phone is now present twice. -/
theorem c1_insert_duplicate_phone_not_rejected :
    find_by_phone demoBooking2.phone_e164 [demoBooking1] = true ∧
    insert_booking demoBooking2 [demoBooking1] = [demoBooking1, demoBooking2] ∧
    insert_booking demoBooking2 [demoBooking1] ≠ [demoBooking1] ∧
    count_total (insert_booking demoBooking2 [demoBooking1]) = 2 := by decide

/-- C1 (amended): the schema created by `init_db` has no uniqueness
constraint on the phone column, so `insert_booking` never fails: even when
a booking with the same phone is already stored it appends the new row, the
row count grows by one, and the duplicate phone remains stored.  Phone
uniqueness rests solely on the caller's `find_by_phone` pre-check. -/
theorem c1_insert_always_appends (b : Booking) (s : Store)
    (h : find_by_phone b.phone_e164 s = true) :
    insert_booking b s = s ++ [b] ∧
    count_total (insert_booking b s) = count_total s + 1 ∧
    find_by_phone b.phone_e164 (insert_booking b s) = true := by
  refine ⟨rfl, by simp [insert_booking, count_total], ?_⟩
  unfold find_by_phone at h ⊢
  unfold insert_booking
  rw [List.any_append, h, Bool.true_or]

/-- Witness for C1 (amended) at a concrete duplicate insert. -/
theorem c1_insert_always_appends_witness :
    insert_booking demoBooking2 [demoBooking1] = [demoBooking1] ++ [demoBooking2] ∧
    count_total (insert_booking demoBooking2 [demoBooking1]) = count_total [demoBooking1] + 1 ∧
    find_by_phone demoBooking2.phone_e164 (insert_booking demoBooking2 [demoBooking1]) = true :=
  c1_insert_always_appends demoBooking2 [demoBooking1] (by decide)

/-! ## C2: is the code generation collision-checked? -/

/-- A stored booking whose code happens to equal the code the generator
produces at the fixed demo time. -/
def demoCollidingStore : Store :=
  [{ code := "3456".toList, parent := "Olga".toList,
     phone_e164 := "+79995556677".toList, child_age := "5 years".toList,
     created_at := "2025-10-19 09:00:00 +0300".toList }]

/-- C2 (counterexample): at a time whose microsecond digits end in `3456`
the generator returns `"3456"` even though a stored booking already carries
that code — the code is `exists_by_code`-true at generation time, no retry
or fallback happens (the generator never consults the store), and the
confirm handler persists a booking with the colliding code. -/
theorem c2_code_collision :
    exists_by_code (generate_unique_code 1700000000 123456) demoCollidingStore = true ∧
    (step { st := .confirm, sess := demoSession, store := demoCollidingStore }
        (.confirmCb ("confirm:yes".toList) 1700000000 123456 demoCreatedAt false)).1.store
      = demoCollidingStore
          ++ [bookingOf { st := .confirm, sess := demoSession, store := demoCollidingStore }
                1700000000 123456 demoCreatedAt] ∧
    (bookingOf { st := .confirm, sess := demoSession, store := demoCollidingStore }
        1700000000 123456 demoCreatedAt).code = "3456".toList := by decide

/-- C2 (amended): there is no collision-checked strategy.  The code is
derived deterministically from the clock and never from the store: it has
exactly 4 characters, all decimal digits, it depends only on the
microsecond fraction of the timestamp — two timestamps with the same
microsecond field give the same code — and the confirm handler installs
exactly this value as the persisted booking's code. -/
theorem c2_code_timestamp_derived (sec sec' micros : Nat) :
    (generate_unique_code sec micros).length = 4 ∧
    (generate_unique_code sec micros).all Char.isDigit = true ∧
    generate_unique_code sec micros = generate_unique_code sec' micros ∧
    ∀ c createdAt, (bookingOf c sec micros createdAt).code = generate_unique_code sec micros := by
  have hp : 6 ≤ (padZeros 6 (natDigits micros)).length := padZeros_length_ge 6 _
  refine ⟨?_, ?_, ?_, fun c createdAt => rfl⟩
  · simp only [generate_unique_code, List.length_drop, List.length_append]
    omega
  · have h2 : (padZeros 6 (natDigits micros)).all Char.isDigit = true := by
      rw [padZeros, List.all_append, replicate_zero_all_digits, natDigits,
        natDigitsCore_all_digits]
      rfl
    show ((natDigits sec ++ padZeros 6 (natDigits micros)).drop _).all Char.isDigit = true
    apply all_drop
    rw [List.all_append, natDigits, natDigitsCore_all_digits, h2]
    rfl
  · have e : ∀ z : Nat, generate_unique_code z micros
        = (padZeros 6 (natDigits micros)).drop ((padZeros 6 (natDigits micros)).length - 4) := by
      intro z
      simp only [generate_unique_code, List.length_append]
      have harith : (natDigits z).length + (padZeros 6 (natDigits micros)).length - 4
          = (natDigits z).length + ((padZeros 6 (natDigits micros)).length - 4) := by omega
      rw [harith, drop_length_add_append]
    rw [e sec, e sec']

/-! ## C5: is a failing insert caught at confirm time? -/

/-- C5 (counterexample): at the confirm step with a failing INSERT the
handler catches nothing: the configuration is returned unchanged — the
session still holds its data and the machine is still in the confirm
state — and no message at all (in particular no generic failure message)
is emitted. -/
theorem c5_insert_failure_not_caught :
    step demoConfirmConfig (.confirmCb ("confirm:yes".toList) 1700000000 123456 demoCreatedAt true)
      = (demoConfirmConfig, []) ∧
    demoConfirmConfig.st = .confirm ∧ demoConfirmConfig.sess ≠ Session.empty := by decide

/-- C5 (amended): when the INSERT raises during a non-cancel confirm
action, the exception propagates out of `on_confirm` uncaught: no reply is
sent to the user, the session is not cleared, and the machine stays in the
confirm state. -/
theorem c5_insert_failure_propagates (c : Config) (data : List Char)
    (sec micros : Nat) (createdAt : List Char) (hst : c.st = .confirm)
    (hpre : beginsWith ("confirm:".toList) data = true)
    (hact : afterFirstColon data ≠ "no".toList) :
    step c (.confirmCb data sec micros createdAt true) = (c, []) := by
  simp only [String.toList] at hpre hact
  simp [step, on_confirm, hst, hpre, hact]

/-- Witness for C5 (amended) at a concrete failing insert. -/
theorem c5_insert_failure_propagates_witness :
    step demoConfirmConfig (.confirmCb ("confirm:yes".toList) 1700000000 123456 demoCreatedAt true)
      = (demoConfirmConfig, []) :=
  c5_insert_failure_propagates demoConfirmConfig ("confirm:yes".toList) 1700000000 123456
    demoCreatedAt rfl (by decide) (by decide)

/-! ## C6: export gating, header and ordering -/

/-- C7 (confirmed): in the confirm state the cancel action (`confirm:no`)
inserts no row — the booking count is unchanged — clears the session, and
returns the machine to idle with the cancellation message. -/
theorem c7_cancel_frame (c : Config) (sec micros : Nat) (createdAt : List Char)
    (insertFails : Bool) (h : c.st = .confirm) :
    step c (.confirmCb ("confirm:no".toList) sec micros createdAt insertFails)
      = ({ c with st := .idle, sess := Session.empty }, [.cancelled, .cbAck]) ∧
    count_total (step c (.confirmCb ("confirm:no".toList) sec micros createdAt insertFails)).1.store
      = count_total c.store := by
  constructor
  · simp [step, on_confirm, h, beginsWith, afterFirstColon]
  · simp [step, on_confirm, h, beginsWith, afterFirstColon, count_total]

/-- Witness for C7 at a concrete confirm-step configuration. -/
theorem c7_cancel_frame_witness :
    step demoConfirmConfig (.confirmCb ("confirm:no".toList) 1700000000 123456 demoCreatedAt false)
      = ({ demoConfirmConfig with st := .idle, sess := Session.empty }, [.cancelled, .cbAck]) ∧
    count_total (step demoConfirmConfig
        (.confirmCb ("confirm:no".toList) 1700000000 123456 demoCreatedAt false)).1.store
      = count_total demoConfirmConfig.store :=
  c7_cancel_frame demoConfirmConfig 1700000000 123456 demoCreatedAt false rfl

/-! ## C9: status is not admin-gated, count and export are -/

/-- C10 (confirmed): in the confirm state, a callback `confirm:<action>`
with any action other than `"no"` — not only `confirm:yes` — generates the
code, persists the booking and clears the session; exactly the action
`"no"` cancels without persisting. -/
theorem c10_confirm_action_dispatch (c : Config) (data : List Char)
    (sec micros : Nat) (createdAt : List Char) (hst : c.st = .confirm)
    (hpre : beginsWith ("confirm:".toList) data = true) :
    (afterFirstColon data ≠ "no".toList →
      step c (.confirmCb data sec micros createdAt false)
        = ({ st := .idle, sess := Session.empty,
             store := insert_booking (bookingOf c sec micros createdAt) c.store },
           [.confirmed (bookingOf c sec micros createdAt).code,
            .adminNotify (bookingOf c sec micros createdAt), .cbAck]) ∧
      count_total (step c (.confirmCb data sec micros createdAt false)).1.store
        = count_total c.store + 1) ∧
    (afterFirstColon data = "no".toList →
      step c (.confirmCb data sec micros createdAt false)
        = ({ c with st := .idle, sess := Session.empty }, [.cancelled, .cbAck])) := by
  simp only [String.toList] at hpre
  constructor
  · intro hact
    simp only [String.toList] at hact
    constructor
    · simp [step, on_confirm, hst, hpre, hact]
    · simp [step, on_confirm, hst, hpre, hact, insert_booking, count_total]
  · intro hact
    simp only [String.toList] at hact
    simp [step, on_confirm, hst, hpre, hact]

/-- Witness for C10: the non-standard action `confirm:maybe` persists a
booking just as `confirm:yes` would. -/
theorem c10_confirm_action_dispatch_witness :
    step demoConfirmConfig (.confirmCb ("confirm:maybe".toList) 1700000000 123456 demoCreatedAt false)
      = ({ st := .idle, sess := Session.empty,
           store := insert_booking (bookingOf demoConfirmConfig 1700000000 123456 demoCreatedAt)
             demoConfirmConfig.store },
         [.confirmed (bookingOf demoConfirmConfig 1700000000 123456 demoCreatedAt).code,
          .adminNotify (bookingOf demoConfirmConfig 1700000000 123456 demoCreatedAt), .cbAck]) ∧
    count_total (step demoConfirmConfig
        (.confirmCb ("confirm:maybe".toList) 1700000000 123456 demoCreatedAt false)).1.store
      = count_total demoConfirmConfig.store + 1 :=
  (c10_confirm_action_dispatch demoConfirmConfig ("confirm:maybe".toList) 1700000000 123456
    demoCreatedAt rfl (by decide)).1 (by decide)

/-! ## C3 and C8: the phone normalizer -/

/-- Filtering to phone characters is idempotent. -/
theorem filter_phone_idem (t : List Char) :
    (t.filter isPhoneChar).filter isPhoneChar = t.filter isPhoneChar := by
  rw [List.filter_filter]
  simp [Bool.and_self]

/-- Counting digits after the digits-and-plus filter equals counting digits
of the raw input. -/
theorem filter_digit_phone (t : List Char) :
    (t.filter isPhoneChar).filter Char.isDigit = t.filter Char.isDigit := by
  rw [List.filter_filter]
  congr 1
  funext a
  cases hd : a.isDigit <;> simp [isPhoneChar, hd]

/-- Every element of a filtered list satisfies the filter predicate. -/
theorem all_filter_self (p : Char → Bool) (t : List Char) :
    (t.filter p).all p = true := by
  rw [List.all_eq_true]
  intro x hx
  exact List.of_mem_filter hx

/-- A list of digits survives the digits-and-plus filter unchanged. -/
theorem filter_phone_of_digits (l : List Char) (h : l.all Char.isDigit = true) :
    l.filter isPhoneChar = l := by
  rw [List.filter_eq_self]
  intro a ha
  have := List.all_eq_true.mp h a ha
  simp [isPhoneChar, this]

/-- A list of digits survives the digit filter unchanged. -/
theorem filter_digit_of_digits (l : List Char) (h : l.all Char.isDigit = true) :
    l.filter Char.isDigit = l :=
  List.filter_eq_self.mpr fun a ha => List.all_eq_true.mp h a ha

/-- The claim's first accepted shape, written from the spec's words: the
input itself is `"+7"` followed by exactly 10 digits (11 digits in all
counting the country digit). -/
def specCanonicalShape (l : List Char) : Bool :=
  beginsWith ("+7".toList) l && (l.drop 2).length == 10 && (l.drop 2).all Char.isDigit

/-- The claim's second accepted shape, written from the spec's words: the
trunk digit `'8'` followed by exactly 10 further digits. -/
def specTrunkShape (l : List Char) : Bool :=
  beginsWith ("8".toList) l && (l.drop 1).length == 10 && (l.drop 1).all Char.isDigit

/-- C3 (counterexample): the input `"+79991234567+"` — a stray trailing
plus — is in neither claimed shape, yet the normalizer accepts it and even
returns it verbatim, so the result is not a canonical `+7XXXXXXXXXX`
identifier either. -/
theorem c3_normalizer_shape_mismatch :
    format_phone_to_e164 ("+79991234567+".toList) = some ("+79991234567+".toList) ∧
    specCanonicalShape ("+79991234567+".toList) = false ∧
    specTrunkShape ("+79991234567+".toList) = false := by decide


/-- Digits satisfy the digits-and-plus predicate. -/
theorem all_phone_of_digits (l : List Char) (h : l.all Char.isDigit = true) :
    l.all isPhoneChar = true := by
  rw [List.all_eq_true] at h ⊢
  intro a ha
  simp [isPhoneChar, h a ha]

/-- The first acceptance condition of the amended claim, written from its
words: the digits-and-plus-stripped input starts with `"+7"` and the input
contains exactly 11 digits. -/
def acceptsPlusSeven (t : List Char) : Bool :=
  beginsWith ("+7".toList) (t.filter isPhoneChar)
    && (t.filter Char.isDigit).length == 11

/-- The second acceptance condition of the amended claim, written from its
words: the digits-only form of the input starts with `"8"` and has exactly
11 digits. -/
def acceptsTrunk (t : List Char) : Bool :=
  beginsWith ("8".toList) (t.filter Char.isDigit)
    && (t.filter Char.isDigit).length == 11

-- The two sides of the exactly-when characterization on the reviewer-style
-- boundary inputs: separators survive stripping, and an 11-digit number in
-- neither condition is rejected.
example : format_phone_to_e164 ("8 999 123 45 67".toList)
    = some ("+79991234567".toList) := by decide
example : acceptsTrunk ("8 999 123 45 67".toList) = true := by decide
example : format_phone_to_e164 ("71234567890".toList) = none := by decide
example : acceptsPlusSeven ("71234567890".toList) = false
    ∧ acceptsTrunk ("71234567890".toList) = false := by decide

/-- C3 (amended): the complete acceptance characterization.  The normalizer
accepts exactly the inputs satisfying `acceptsPlusSeven` (returning the
digits-and-plus-stripped form verbatim — so stray plus signs survive) or
`acceptsTrunk` (returning `"+7"` plus the last 10 digits); every other
input — in particular every input whose digit count differs from 11 —
yields `none`.  Consequently an input literally in the spec's `+7`-shape is
returned unchanged, an input literally in the trunk shape is rewritten to
`"+7"` plus its 10 trailing digits, and every accepted value begins with
`"+7"`, contains exactly 11 digits, and consists only of digits and plus
signs.  Unlike the original claim, acceptance is not limited to the two
literal shapes (separators and stray plus signs survive the stripping, see
the counterexample), and the first branch's output is canonical only up to
stray plus signs. -/
theorem c3_normalizer_characterization (t : List Char) :
    (format_phone_to_e164 t
      = if acceptsPlusSeven t then some (t.filter isPhoneChar)
        else if acceptsTrunk t then some ('+' :: '7' :: (t.filter Char.isDigit).drop 1)
        else none) ∧
    (specCanonicalShape t = true → format_phone_to_e164 t = some t) ∧
    (specTrunkShape t = true → format_phone_to_e164 t = some ('+' :: '7' :: t.drop 1)) ∧
    ((t.filter Char.isDigit).length ≠ 11 → format_phone_to_e164 t = none) ∧
    (∀ c, format_phone_to_e164 t = some c →
      beginsWith ("+7".toList) c = true ∧ (c.filter Char.isDigit).length = 11 ∧
      c.all isPhoneChar = true) := by
  have hplusneg : ¬ (Char.isDigit '+' = true) := by decide
  have h7 : Char.isDigit '7' = true := by decide
  have h8 : Char.isDigit '8' = true := by decide
  have hpp : isPhoneChar '+' = true := by decide
  have hp7 : isPhoneChar '7' = true := by decide
  have hp8 : isPhoneChar '8' = true := by decide
  refine ⟨?_, ?_, ?_, ?_, ?_⟩
  · simp only [format_phone_to_e164, acceptsPlusSeven, acceptsTrunk, filter_digit_phone]
  · intro h
    simp only [specCanonicalShape, Bool.and_eq_true, beq_iff_eq] at h
    obtain ⟨⟨hb, hlen⟩, hall⟩ := h
    cases t with
    | nil => simp [beginsWith] at hb
    | cons a t1 =>
      cases t1 with
      | nil => simp [beginsWith] at hb
      | cons b t2 =>
        simp only [beginsWith, Bool.and_eq_true, beq_iff_eq] at hb
        obtain ⟨ha, hb'⟩ := hb
        subst ha
        obtain ⟨hb'', -⟩ := hb'
        subst hb''
        simp only [List.drop_succ_cons, List.drop_zero] at hlen hall
        have e1 : List.filter isPhoneChar ('+' :: '7' :: t2) = '+' :: '7' :: t2 := by
          rw [List.filter_cons_of_pos hpp, List.filter_cons_of_pos hp7,
            filter_phone_of_digits t2 hall]
        have e2 : List.filter Char.isDigit ('+' :: '7' :: t2) = '7' :: t2 := by
          rw [List.filter_cons_of_neg hplusneg, List.filter_cons_of_pos h7,
            filter_digit_of_digits t2 hall]
        have e3 : beginsWith ("+7".toList) ('+' :: '7' :: t2) = true := by
          simp [beginsWith]
        have e4 : ('7' :: t2).length = 11 := by
          rw [List.length_cons, hlen]
        simp only [format_phone_to_e164]
        rw [e1, e2, e3, e4]
        simp
  · intro h
    simp only [specTrunkShape, Bool.and_eq_true, beq_iff_eq] at h
    obtain ⟨⟨hb, hlen⟩, hall⟩ := h
    cases t with
    | nil => simp [beginsWith] at hb
    | cons a t1 =>
      simp only [beginsWith, Bool.and_eq_true, beq_iff_eq] at hb
      obtain ⟨ha, -⟩ := hb
      subst ha
      simp only [List.drop_succ_cons, List.drop_zero] at hlen hall
      have hc : (('+' : Char) == '8') = false := by decide
      have e1 : List.filter isPhoneChar ('8' :: t1) = '8' :: t1 := by
        rw [List.filter_cons_of_pos hp8, filter_phone_of_digits t1 hall]
      have e2 : List.filter Char.isDigit ('8' :: t1) = '8' :: t1 := by
        rw [List.filter_cons_of_pos h8, filter_digit_of_digits t1 hall]
      have e3 : beginsWith ("+7".toList) ('8' :: t1) = false := by
        simp [beginsWith, hc]
      have e4 : beginsWith ("8".toList) ('8' :: t1) = true := by
        simp [beginsWith]
      have e5 : ('8' :: t1).length = 11 := by
        rw [List.length_cons, hlen]
      simp only [format_phone_to_e164]
      rw [e1, e2, e3, e4, e5]
      simp
  · intro h
    have hc1 : ¬ (beginsWith ("+7".toList) (t.filter isPhoneChar)
        && (((t.filter isPhoneChar).filter Char.isDigit).length == 11)) = true := by
      rw [Bool.and_eq_true]
      rintro ⟨-, hl⟩
      rw [filter_digit_phone, beq_iff_eq] at hl
      exact h hl
    have hc2 : ¬ (beginsWith ("8".toList) (t.filter Char.isDigit)
        && ((t.filter Char.isDigit).length == 11)) = true := by
      rw [Bool.and_eq_true]
      rintro ⟨-, hl⟩
      rw [beq_iff_eq] at hl
      exact h hl
    simp only [format_phone_to_e164]
    rw [if_neg hc1, if_neg hc2]
  · intro c h
    simp only [format_phone_to_e164] at h
    by_cases hb1 : (beginsWith ("+7".toList) (t.filter isPhoneChar)
        && (((t.filter isPhoneChar).filter Char.isDigit).length == 11)) = true
    · rw [if_pos hb1] at h
      injection h with hc
      subst hc
      rw [Bool.and_eq_true, beq_iff_eq] at hb1
      exact ⟨hb1.1, hb1.2, all_filter_self _ _⟩
    · rw [if_neg hb1] at h
      by_cases hb2 : (beginsWith ("8".toList) (t.filter Char.isDigit)
          && ((t.filter Char.isDigit).length == 11)) = true
      · rw [if_pos hb2] at h
        injection h with hc
        subst hc
        rw [Bool.and_eq_true, beq_iff_eq] at hb2
        have hall : ((t.filter Char.isDigit).drop 1).all Char.isDigit = true :=
          all_drop 1 (all_filter_self _ _)
        have e2 : List.filter Char.isDigit ('+' :: '7' :: (t.filter Char.isDigit).drop 1)
            = '7' :: (t.filter Char.isDigit).drop 1 := by
          rw [List.filter_cons_of_neg hplusneg, List.filter_cons_of_pos h7,
            filter_digit_of_digits _ hall]
        refine ⟨by simp [beginsWith], ?_, ?_⟩
        · rw [e2, List.length_cons, List.length_drop, hb2.2]
        · rw [List.all_cons, List.all_cons, hpp, hp7, all_phone_of_digits _ hall]
          rfl
      · rw [if_neg hb2] at h
        exact absurd h (by simp)

/-- Witness for C3 (amended): the trunk-shape input `"89991234567"` is
rewritten to `"+79991234567"`. -/
theorem c3_normalizer_characterization_witness :
    format_phone_to_e164 ("89991234567".toList)
      = some ('+' :: '7' :: ("89991234567".toList).drop 1) :=
  (c3_normalizer_characterization ("89991234567".toList)).2.2.1 (by decide)

/-- C8 (confirmed): the normalizer is idempotent on accepted inputs —
normalizing a value it has produced returns that value unchanged. -/
theorem c8_normalizer_idempotent (t c : List Char)
    (h : format_phone_to_e164 t = some c) :
    format_phone_to_e164 c = some c := by
  have hplusneg : ¬ (Char.isDigit '+' = true) := by decide
  have h7 : Char.isDigit '7' = true := by decide
  have hpp : isPhoneChar '+' = true := by decide
  have hp7 : isPhoneChar '7' = true := by decide
  simp only [format_phone_to_e164] at h
  by_cases hb1 : (beginsWith ("+7".toList) (t.filter isPhoneChar)
      && (((t.filter isPhoneChar).filter Char.isDigit).length == 11)) = true
  · rw [if_pos hb1] at h
    injection h with hc
    subst hc
    rw [Bool.and_eq_true] at hb1
    simp only [format_phone_to_e164]
    rw [filter_phone_idem, hb1.1, hb1.2]
    simp
  · rw [if_neg hb1] at h
    by_cases hb2 : (beginsWith ("8".toList) (t.filter Char.isDigit)
        && ((t.filter Char.isDigit).length == 11)) = true
    · rw [if_pos hb2] at h
      injection h with hc
      subst hc
      rw [Bool.and_eq_true, beq_iff_eq] at hb2
      have hall : ((t.filter Char.isDigit).drop 1).all Char.isDigit = true :=
        all_drop 1 (all_filter_self _ _)
      have e1 : List.filter isPhoneChar ('+' :: '7' :: (t.filter Char.isDigit).drop 1)
          = '+' :: '7' :: (t.filter Char.isDigit).drop 1 := by
        rw [List.filter_cons_of_pos hpp, List.filter_cons_of_pos hp7,
          filter_phone_of_digits _ hall]
      have e2 : List.filter Char.isDigit ('+' :: '7' :: (t.filter Char.isDigit).drop 1)
          = '7' :: (t.filter Char.isDigit).drop 1 := by
        rw [List.filter_cons_of_neg hplusneg, List.filter_cons_of_pos h7,
          filter_digit_of_digits _ hall]
      have e3 : beginsWith ("+7".toList) ('+' :: '7' :: (t.filter Char.isDigit).drop 1) = true := by
        simp [beginsWith]
      have e4 : ('7' :: (t.filter Char.isDigit).drop 1).length = 11 := by
        rw [List.length_cons, List.length_drop, hb2.2]
      simp only [format_phone_to_e164]
      rw [e1, e2, e3, e4]
      simp
    · rw [if_neg hb2] at h
      exact absurd h (by simp)

/-- Witness for C8 at a concrete accepted input. -/
theorem c8_normalizer_idempotent_witness :
    format_phone_to_e164 ("+79991234567".toList) = some ("+79991234567".toList) :=
  c8_normalizer_idempotent ("8 (999) 123-45-67".toList) ("+79991234567".toList) (by decide)

/-! ## C4: a booked phone cannot re-enter a later intake flow -/

/-- The table only grows: no event deletes a row, so a phone present in the
store is still present after any step. -/
theorem find_by_phone_step (p : List Char) (c : Config) (e : Event)
    (h : find_by_phone p c.store = true) :
    find_by_phone p (step c e).1.store = true := by
  cases e with
  | pingCmd => exact h
  | startCmd => exact h
  | menuCmd => exact h
  | statusCmd uid => exact h
  | exportCmd uid => exact h
  | countCmd uid => exact h
  | signupStart => exact h
  | confirmCb data sec micros createdAt insertFails =>
    simp only [step]
    split
    · simp only [on_confirm]
      split
      · exact h
      · split
        · exact h
        · show find_by_phone p (insert_booking _ c.store) = true
          unfold find_by_phone at h
          unfold find_by_phone insert_booking
          rw [List.any_append, h, Bool.true_or]
    · exact h
  | textMsg t =>
    simp only [step]
    split
    · simp only [on_parent_name]
      split
      · exact h
      · exact h
    · simp only [on_phone]
      split
      · exact h
      · split
        · exact h
        · exact h
    · simp only [on_child_age]
      split
      · exact h
      · exact h
    · exact h

/-- Once the store contains phone `p`, no step can install `p` into the
session: the phone handler's `find_by_phone` pre-check blocks it, and every
other event either leaves the phone field alone or clears it. -/
theorem session_phone_step (p : List Char) (c : Config) (e : Event)
    (hf : find_by_phone p c.store = true)
    (h : c.sess.phone_e164 ≠ some p) :
    (step c e).1.sess.phone_e164 ≠ some p := by
  cases e with
  | pingCmd => exact h
  | startCmd => simp [step, Session.empty]
  | menuCmd => simp [step, Session.empty]
  | statusCmd uid => exact h
  | exportCmd uid => exact h
  | countCmd uid => exact h
  | signupStart => exact h
  | confirmCb data sec micros createdAt insertFails =>
    simp only [step]
    split
    · simp only [on_confirm]
      split
      · simp [Session.empty]
      · split
        · exact h
        · simp [Session.empty]
    · exact h
  | textMsg t =>
    simp only [step]
    split
    · simp only [on_parent_name]
      split
      · exact h
      · exact h
    · simp only [on_phone]
      split
      · exact h
      · rename_i p' heq
        split
        · exact h
        · rename_i hnf
          intro hcl
          have hpp : p' = p := by simpa using hcl
          subst hpp
          exact hnf hf
    · simp only [on_child_age]
      split
      · exact h
      · exact h
    · exact h

/-- Both invariants carried along an arbitrary event trace. -/
theorem run_inv (p : List Char) (es : List Event) :
    ∀ c : Config, find_by_phone p c.store = true → c.sess.phone_e164 ≠ some p →
      find_by_phone p (run c es).store = true ∧ (run c es).sess.phone_e164 ≠ some p := by
  induction es with
  | nil => exact fun c h1 h2 => ⟨h1, h2⟩
  | cons e es ih =>
    intro c h1 h2
    exact ih _ (find_by_phone_step p c e h1) (session_phone_step p c e h1 h2)

/-- C4 (confirmed): once a booking for phone `p` is persisted, a later
intake flow (any event trace started with `p` not in the session) can never
hold `p` in its session — in particular it never reaches the confirm state
with `p` — and at the phone-entry state, any input normalizing to `p` is
answered with the "already booked" message and leaves the configuration
unchanged, so the flow remains collecting a phone. -/
theorem c4_booked_phone_never_reenters (p : List Char) (c0 : Config)
    (es : List Event) (h1 : find_by_phone p c0.store = true)
    (h2 : c0.sess.phone_e164 ≠ some p) :
    (run c0 es).sess.phone_e164 ≠ some p ∧
    (∀ t, format_phone_to_e164 t = some p → (run c0 es).st = .phone →
      step (run c0 es) (.textMsg t) = (run c0 es, [.alreadyBooked])) := by
  obtain ⟨hf, hs⟩ := run_inv p es c0 h1 h2
  refine ⟨hs, ?_⟩
  intro t ht hst
  simp [step, hst, on_phone, ht, hf]

/-- The second flow of the C4 scenario: a fresh start over a store that
already holds `demoBooking1`. -/
def c4DemoStart : Config := { st := .idle, sess := Session.empty, store := [demoBooking1] }

/-- The second flow's events up to the phone-entry step. -/
def c4DemoEvents : List Event :=
  [.startCmd, .signupStart, .textMsg ("Anna Ivanova".toList)]

/-- Witness for C4: after restarting and entering a name, typing the
already-booked phone is rejected in place. -/
theorem c4_booked_phone_never_reenters_witness :
    (run c4DemoStart c4DemoEvents).sess.phone_e164 ≠ some ("+79991234567".toList) ∧
    step (run c4DemoStart c4DemoEvents) (.textMsg ("+7 999 123-45-67".toList))
      = (run c4DemoStart c4DemoEvents, [.alreadyBooked]) := by
  have h := c4_booked_phone_never_reenters ("+79991234567".toList) c4DemoStart
    c4DemoEvents (by decide) (by decide)
  exact ⟨h.1, h.2 _ (by decide) (by decide)⟩
